import Mathlib

/-!
Shallow embedding of the HID device-discovery-and-control core of
vaxee-autoswitch (hid_windows.go and the config-side helpers).

OS interactions (SetupDi enumeration, CreateFileW opens, HidD get/set
feature calls) are modelled by explicit oracles gathered in `HidOS` and
`HidEnv`; the control-flow, filtering, ordering and report construction
are translated from the Go source.  Report-sending functions additionally
return the list of observable events (feature-report sends and sleeps) so
that ordering and at-most/exactly-n-send properties can be stated.
-/

namespace Vaxee

/-- Char-list matcher: does `pat` occur at the head of `s`? -/
def matchAt : List Char → List Char → Bool
  | [], _ => true
  | _ :: _, [] => false
  | p :: ps, c :: cs => p == c && matchAt ps cs

/-- Does `pat` occur as a contiguous run anywhere in `s`?  Embeds Go
strings.Contains (second argument of Contains is the pattern). -/
def hasInfixRun (pat : List Char) : List Char → Bool
  | [] => matchAt pat []
  | c :: rest => matchAt pat (c :: rest) || hasInfixRun pat rest

/-- Go strings.Contains s sub. -/
def strContains (s sub : String) : Bool :=
  hasInfixRun sub.data s.data

/-- Go strings.ToLower, per-character (the strings involved here are
ASCII device paths and vendor names). -/
def strToLower (s : String) : String :=
  ⟨s.data.map Char.toLower⟩

/-- Go strings.HasSuffix s post. -/
def strEndsWith (s post : String) : Bool :=
  List.isSuffixOf post.data s.data

/-- VaxeeDeviceInfo from hid_windows.go.  16-bit fields are Nats. -/
structure VaxeeDeviceInfo where
  Path : String
  VID : Nat
  PID : Nat
  Manufacturer : String
  Product : String
  UsagePage : Nat
  Usage : Nat
  FeatureLen : Nat
deriving DecidableEq

/-- The Go zero value of VaxeeDeviceInfo (what `dev` holds when
FindOneVaxeeDevice returns an error). -/
def zeroDevice : VaxeeDeviceInfo :=
  { Path := "", VID := 0, PID := 0, Manufacturer := "", Product := "",
    UsagePage := 0, Usage := 0, FeatureLen := 0 }

/-- The length clamp at the top of buildReportSized:
`if total < 6 { total = 6 }`. -/
def reportLen (total : Int) : Nat :=
  (if total < 6 then (6 : Int) else total).toNat

/-- buildReportSized from hid_windows.go: allocate a zeroed buffer of
length `total` (clamped up to 6), then assign bytes 0..5 as the source
does (0x0e report ID, 0xa5, cmd, 0x02, 0x01, val). -/
def buildReportSized (total : Int) (cmd val : Nat) : List Nat :=
  (((((((List.replicate (reportLen total) 0).set 0 0x0e).set 1 0xa5).set
      2 cmd).set 3 0x02).set 4 0x01).set 5 val)

/-- pollingToYY from the config unit: the closed polling-rate map. -/
def pollingToYY (p : Int) : Except String Nat :=
  if p = 1000 then .ok 0x02
  else if p = 2000 then .ok 0x03
  else if p = 4000 then .ok 0x04
  else .error ("unsupported polling rate: " ++ toString p)

/-- HIDP_CAPS fields the code reads. -/
structure HidCaps where
  Usage : Nat
  UsagePage : Nat
  FeatureReportByteLength : Nat
deriving DecidableEq

/-- Per-path outcome of the OS queries performed by queryDeviceInfo:
open in query mode, HidD_GetAttributes, the two string queries
(hidGetString already degrades to "" on failure, so only the resulting
strings are kept), and the capability query (`none` = queryCaps failed). -/
structure DevQuery where
  openOk : Bool
  attrOk : Bool
  vid : Nat
  pid : Nat
  manu : String
  prod : String
  caps : Option HidCaps
deriving DecidableEq

/-- queryDeviceInfo from hid_windows.go: fails (skip) when the open or
the attribute query fails; a capability failure degrades the usage and
feature-length fields to zero but still yields a descriptor. -/
def queryDeviceInfo (q : DevQuery) (path : String) : Option VaxeeDeviceInfo :=
  if !q.openOk then none
  else if !q.attrOk then none
  else
    match q.caps with
    | none =>
        some { Path := path, VID := q.vid, PID := q.pid,
               Manufacturer := q.manu, Product := q.prod,
               UsagePage := 0, Usage := 0, FeatureLen := 0 }
    | some c =>
        some { Path := path, VID := q.vid, PID := q.pid,
               Manufacturer := q.manu, Product := q.prod,
               UsagePage := c.UsagePage, Usage := c.Usage,
               FeatureLen := c.FeatureReportByteLength }

/-- One SetupDiEnumDeviceInterfaces item: `pathRes` is the resolved
device path (`none` when the detail-size query returns 0 or the detail
fetch fails), and `query` is the OS behaviour of queryDeviceInfo on that
path. -/
structure IfaceItem where
  pathRes : Option String
  query : DevQuery
deriving DecidableEq

/-- The OS enumeration surface: whether SetupDiGetClassDevsW succeeds,
and the finite item sequence delivered before ERROR_NO_MORE_ITEMS. -/
structure HidOS where
  classDevsOk : Bool
  items : List IfaceItem
deriving DecidableEq

/-- The vendor filter applied at the end of the enumeration loop body:
keep a descriptor iff its lowercased manufacturer or product string
contains "vaxee". -/
def vaxeeMatch (info : VaxeeDeviceInfo) : Bool :=
  strContains (strToLower info.Manufacturer) "vaxee" ||
    strContains (strToLower info.Product) "vaxee"

/-- The per-item body of the EnumerateVaxeeDevices loop: skip items with
no path or an empty path, skip items whose queryDeviceInfo fails, keep
the rest iff they pass the vendor filter. -/
def enumLoop : List IfaceItem → List VaxeeDeviceInfo
  | [] => []
  | it :: rest =>
    match it.pathRes with
    | none => enumLoop rest
    | some path =>
      if path = "" then enumLoop rest
      else
        match queryDeviceInfo it.query path with
        | none => enumLoop rest
        | some info =>
          if vaxeeMatch info then info :: enumLoop rest else enumLoop rest

/-- EnumerateVaxeeDevices from hid_windows.go: fails only when
SetupDiGetClassDevsW fails; otherwise runs the per-item loop. -/
def EnumerateVaxeeDevices (os : HidOS) : Except String (List VaxeeDeviceInfo) :=
  if !os.classDevsOk then .error "SetupDiGetClassDevsW failed"
  else .ok (enumLoop os.items)

/-- The full OS surface the control core touches: enumeration, the
HidD_GetFeature probe outcome per (path, report ID, buffer length), and
the HidD_SetFeature outcome per (path, report).  Open failures on a path
are folded into the corresponding oracle answering false. -/
structure HidEnv where
  os : HidOS
  probeOk : String → Nat → Nat → Bool
  sendOk : String → List Nat → Bool

/-- getFeature from hid_windows.go, with the buffer content abstracted
away (SelectVaxeeControlPath discards it): rejects non-positive lengths,
otherwise succeeds iff the OS probe oracle does. -/
def getFeature (probeOk : String → Nat → Nat → Bool) (path : String)
    (reportID : Nat) (length : Int) : Except String Unit :=
  if length ≤ 0 then .error "invalid length"
  else if probeOk path reportID length.toNat then .ok ()
  else .error "HidD_GetFeature failed"

/-- The probe buffer length used for a candidate: its declared feature
length, or the 64-byte fallback when the capability query yielded 0. -/
def probeLen (d : VaxeeDeviceInfo) : Int :=
  if (d.FeatureLen : Int) ≤ 0 then 64 else (d.FeatureLen : Int)

/-- The keyboard-collection test from SelectVaxeeControlPath:
the lowercased path ends in the literal suffix backslash-kbd. -/
def isKbdPath (p : String) : Bool :=
  strEndsWith (strToLower p) "\\kbd"

/-- The candidate reordering in SelectVaxeeControlPath: all descriptors
whose path is not keyboard-suffixed, in enumeration order, followed by
all that are. -/
def orderCandidates (ds : List VaxeeDeviceInfo) : List VaxeeDeviceInfo :=
  ds.filter (fun d => !isKbdPath d.Path) ++ ds.filter (fun d => isKbdPath d.Path)

/-- The probe loop of SelectVaxeeControlPath, instrumented with the list
of candidates actually probed, in order: stop at the first candidate
whose getFeature with report ID 0x0e succeeds. -/
def probeLoop (probeOk : String → Nat → Nat → Bool) :
    List VaxeeDeviceInfo → Option VaxeeDeviceInfo × List VaxeeDeviceInfo
  | [] => (none, [])
  | d :: rest =>
    match getFeature probeOk d.Path 0x0e (probeLen d) with
    | .ok _ => (some d, [d])
    | .error _ =>
      let r := probeLoop probeOk rest
      (r.1, d :: r.2)

/-- SelectVaxeeControlPath from hid_windows.go, instrumented with the
probe trace.  Propagates an enumeration failure, fails with the
no-device message on an empty candidate list, otherwise probes the
reordered candidates and returns the first that answers, or fails with
the no-control-channel message. -/
def SelectVaxeeControlPath (env : HidEnv) :
    Except String VaxeeDeviceInfo × List VaxeeDeviceInfo :=
  match EnumerateVaxeeDevices env.os with
  | .error e => (.error e, [])
  | .ok ds =>
    if ds.length = 0 then (.error "no VAXEE HID device found", [])
    else
      let r := probeLoop env.probeOk (orderCandidates ds)
      match r.1 with
      | some d => (.ok d, r.2)
      | none =>
        (.error "no VAXEE top-level collection accepts Feature ReportID=0x0e",
         r.2)

/-- FindOneVaxeeDevice from hid_windows.go (the trace is dropped). -/
def FindOneVaxeeDevice (env : HidEnv) : Except String VaxeeDeviceInfo :=
  (SelectVaxeeControlPath env).1

/-- Observable device-facing events of ApplyVaxeeSetting: each
HidD_SetFeature call with its path and report buffer, and each sleep
(milliseconds). -/
inductive Ev where
  | sent (path : String) (report : List Nat) : Ev
  | slept (ms : Nat) : Ev
deriving DecidableEq

/-- sendFeatureReport from hid_windows.go: rejects an empty report,
otherwise succeeds iff the OS send oracle does. -/
def sendFeatureReport (sendOk : String → List Nat → Bool) (path : String)
    (report : List Nat) : Except String Unit :=
  if report.length = 0 then .error "empty report"
  else if sendOk path report then .ok ()
  else .error "HidD_SetFeature failed"

/-- The `dev` value ApplyVaxeeSetting works with after its internal
re-resolution: the resolved descriptor, or the Go zero value when
FindOneVaxeeDevice failed. -/
def applyDev (env : HidEnv) : VaxeeDeviceInfo :=
  match FindOneVaxeeDevice env with
  | .ok d => d
  | .error _ => zeroDevice

/-- The path ApplyVaxeeSetting sends to: the resolved descriptor's path
when the re-resolution succeeded with a non-empty path, else the
caller-supplied path. -/
def applyPath (env : HidEnv) (path0 : String) : String :=
  match FindOneVaxeeDevice env with
  | .ok d => if d.Path = "" then path0 else d.Path
  | .error _ => path0

/-- The feature-report length ApplyVaxeeSetting uses: the (possibly
zero-valued) `dev`'s feature length, with the 64-byte fallback. -/
def applyFlen (env : HidEnv) : Int :=
  if ((applyDev env).FeatureLen : Int) ≤ 0 then 64
  else ((applyDev env).FeatureLen : Int)

/-- ApplyVaxeeSetting from hid_windows.go, instrumented with the event
trace: re-resolve the control path (ignoring a resolution failure), send
the performance-mode report (cmd 0x08, payload = the mode byte), sleep
25 ms, map the polling rate to its protocol byte (failing here returns
the rate error), send the polling-rate report (cmd 0x07). -/
def ApplyVaxeeSetting (env : HidEnv) (path0 : String) (perf : Nat)
    (poll : Int) : Except String Unit × List Ev :=
  let path := applyPath env path0
  let flen := applyFlen env
  let r1 := buildReportSized flen 0x08 perf
  match sendFeatureReport env.sendOk path r1 with
  | .error e => (.error ("perf feature report failed: " ++ e), [.sent path r1])
  | .ok _ =>
    match pollingToYY poll with
    | .error e => (.error e, [.sent path r1, .slept 25])
    | .ok yy =>
      let r2 := buildReportSized flen 0x07 yy
      match sendFeatureReport env.sendOk path r2 with
      | .error e =>
        (.error ("poll feature report failed: " ++ e),
         [.sent path r1, .slept 25, .sent path r2])
      | .ok _ => (.ok (), [.sent path r1, .slept 25, .sent path r2])

/-! ### Helper lemmas about the report codec -/

lemma six_le_reportLen (total : Int) : 6 ≤ reportLen total := by
  unfold reportLen
  split <;> omega

lemma reportLen_eq_max (total : Int) : reportLen total = (max total 6).toNat := by
  unfold reportLen
  rcases lt_or_le total 6 with h | h
  · rw [if_pos h, max_eq_right h.le]
  · rw [if_neg (not_lt.mpr h), max_eq_left h]

lemma setChainReplicate (n : Nat) (a b c d e f : Nat) :
    (((((((List.replicate (n + 6) (0 : Nat)).set 0 a).set 1 b).set 2 c).set
        3 d).set 4 e).set 5 f)
      = [a, b, c, d, e, f] ++ List.replicate n 0 := rfl

lemma buildReportSized_eq (total : Int) (cmd val : Nat) :
    buildReportSized total cmd val
      = [0x0e, 0xa5, cmd, 0x02, 0x01, val] ++
          List.replicate (reportLen total - 6) 0 := by
  have h6 := six_le_reportLen total
  unfold buildReportSized
  rw [show reportLen total = (reportLen total - 6) + 6 by omega]
  exact setChainReplicate _ _ _ _ _ _ _

lemma buildReportSized_length (total : Int) (cmd val : Nat) :
    (buildReportSized total cmd val).length = reportLen total := by
  have h6 := six_le_reportLen total
  rw [buildReportSized_eq]
  simp
  omega

lemma buildReportSized_ne_nil (total : Int) (cmd val : Nat) :
    (buildReportSized total cmd val).length ≠ 0 := by
  rw [buildReportSized_length]
  have := six_le_reportLen total
  omega

lemma replicate_get?_of_lt {a : Nat} : ∀ (n i : Nat), i < n →
    (List.replicate n a).get? i = some a
  | n + 1, 0, _ => rfl
  | n + 1, i + 1, h =>
    replicate_get?_of_lt n i (by omega)

/-! ### Helper lemmas about sending -/

lemma sendFeatureReport_build (sendOk : String → List Nat → Bool)
    (path : String) (total : Int) (cmd val : Nat) :
    sendFeatureReport sendOk path (buildReportSized total cmd val)
      = if sendOk path (buildReportSized total cmd val) then .ok ()
        else .error "HidD_SetFeature failed" := by
  unfold sendFeatureReport
  rw [if_neg (buildReportSized_ne_nil total cmd val)]

lemma pollingToYY_unsupported (p : Int) (h1 : p ≠ 1000) (h2 : p ≠ 2000)
    (h3 : p ≠ 4000) :
    pollingToYY p = .error ("unsupported polling rate: " ++ toString p) := by
  unfold pollingToYY
  rw [if_neg h1, if_neg h2, if_neg h3]

/-! ### Helper lemmas about probing and selection -/

/-- Whether the control probe of SelectVaxeeControlPath succeeds on a
candidate: getFeature with report ID 0x0e at the candidate's probe
length. -/
def probeHit (p : String → Nat → Nat → Bool) (d : VaxeeDeviceInfo) : Bool :=
  p d.Path 0x0e (probeLen d).toNat

lemma probeLen_pos (d : VaxeeDeviceInfo) : 0 < probeLen d := by
  unfold probeLen
  split <;> omega

lemma getFeature_probe (p : String → Nat → Nat → Bool) (d : VaxeeDeviceInfo) :
    getFeature p d.Path 0x0e (probeLen d)
      = if probeHit p d then .ok () else .error "HidD_GetFeature failed" := by
  have hpos := probeLen_pos d
  unfold getFeature probeHit
  rw [if_neg (by omega)]

lemma probeLoop_cons_hit (p : String → Nat → Nat → Bool)
    (d : VaxeeDeviceInfo) (rest : List VaxeeDeviceInfo)
    (h : probeHit p d = true) :
    probeLoop p (d :: rest) = (some d, [d]) := by
  unfold probeLoop
  rw [getFeature_probe, if_pos h]

lemma probeLoop_cons_miss (p : String → Nat → Nat → Bool)
    (d : VaxeeDeviceInfo) (rest : List VaxeeDeviceInfo)
    (h : probeHit p d = false) :
    probeLoop p (d :: rest)
      = ((probeLoop p rest).1, d :: (probeLoop p rest).2) := by
  have hg : getFeature p d.Path 0x0e (probeLen d)
      = .error "HidD_GetFeature failed" := by
    rw [getFeature_probe, if_neg (by simp [h])]
  simp [probeLoop, hg]

lemma probeLoop_none_iff (p : String → Nat → Nat → Bool) :
    ∀ l : List VaxeeDeviceInfo,
      (probeLoop p l).1 = none ↔ ∀ d ∈ l, probeHit p d = false
  | [] => by simp [probeLoop]
  | d :: rest => by
    cases h : probeHit p d
    · rw [probeLoop_cons_miss p d rest h]
      simp only [List.mem_cons]
      constructor
      · intro hn x hx
        rcases hx with rfl | hx
        · exact h
        · exact (probeLoop_none_iff p rest).mp hn x hx
      · intro hall
        exact (probeLoop_none_iff p rest).mpr fun x hx => hall x (Or.inr hx)
    · rw [probeLoop_cons_hit p d rest h]
      simp only [List.mem_cons]
      constructor
      · intro hn
        exact absurd hn (by simp)
      · intro hall
        exact absurd (hall d (Or.inl rfl)) (by simp [h])

lemma probeLoop_some (p : String → Nat → Nat → Bool) :
    ∀ (l : List VaxeeDeviceInfo) (d : VaxeeDeviceInfo),
      (probeLoop p l).1 = some d → d ∈ l ∧ probeHit p d = true
  | [], d => by simp [probeLoop]
  | x :: rest, d => by
    cases h : probeHit p x
    · rw [probeLoop_cons_miss p x rest h]
      intro hsome
      have := probeLoop_some p rest d hsome
      exact ⟨List.mem_cons_of_mem x this.1, this.2⟩
    · rw [probeLoop_cons_hit p x rest h]
      intro hsome
      cases Option.some.inj hsome
      exact ⟨List.mem_cons_self x rest, h⟩

lemma probeLoop_trace_get? (p : String → Nat → Nat → Bool) :
    ∀ (l : List VaxeeDeviceInfo) (i : Nat),
      i < (probeLoop p l).2.length → (probeLoop p l).2.get? i = l.get? i
  | [], i => by simp [probeLoop]
  | d :: rest, i => by
    cases h : probeHit p d
    · rw [probeLoop_cons_miss p d rest h]
      match i with
      | 0 => intro _; rfl
      | i + 1 =>
        intro hi
        simp only [List.length_cons] at hi
        simpa using probeLoop_trace_get? p rest i (by omega)
    · rw [probeLoop_cons_hit p d rest h]
      match i with
      | 0 => intro _; rfl
      | i + 1 => intro hi; simp at hi

lemma mem_orderCandidates (d : VaxeeDeviceInfo) (ds : List VaxeeDeviceInfo) :
    d ∈ orderCandidates ds ↔ d ∈ ds := by
  simp only [orderCandidates, List.mem_append, List.mem_filter]
  cases hk : isKbdPath d.Path <;> simp [hk]

lemma orderCandidates_get?_kbd (ds : List VaxeeDeviceInfo) (i : Nat)
    (dk : VaxeeDeviceInfo) (hget : (orderCandidates ds).get? i = some dk)
    (hkbd : isKbdPath dk.Path = true) :
    (ds.filter (fun d => !isKbdPath d.Path)).length ≤ i := by
  by_contra hlt
  push_neg at hlt
  rw [orderCandidates, List.get?_append hlt] at hget
  have hmem := List.get?_mem hget
  have := (List.mem_filter.mp hmem).2
  simp [hkbd] at this

/-! ### Helper lemmas about enumeration -/

/-- Whether one enumeration item contributes a descriptor to the
vendor-filtered output: it must resolve to a non-empty path, its device
queries must succeed far enough to build a descriptor, and the
descriptor must pass the vendor filter. -/
def itemYieldsMatch (it : IfaceItem) : Bool :=
  match it.pathRes with
  | none => false
  | some path =>
    if path = "" then false
    else
      match queryDeviceInfo it.query path with
      | none => false
      | some info => vaxeeMatch info

lemma enumLoop_nil_of_no_match :
    ∀ items : List IfaceItem,
      (∀ it ∈ items, itemYieldsMatch it = false) → enumLoop items = []
  | [], _ => rfl
  | it :: rest, h => by
    have hit : itemYieldsMatch it = false := h it (List.mem_cons_self it rest)
    have hrest : enumLoop rest = [] :=
      enumLoop_nil_of_no_match rest fun x hx => h x (List.mem_cons_of_mem it hx)
    unfold enumLoop
    unfold itemYieldsMatch at hit
    cases hp : it.pathRes with
    | none => exact hrest
    | some path =>
      rw [hp] at hit
      dsimp only at hit ⊢
      by_cases hemp : path = ""
      · rw [if_pos hemp]
        exact hrest
      · rw [if_neg hemp]
        rw [if_neg hemp] at hit
        cases hq : queryDeviceInfo it.query path with
        | none => exact hrest
        | some info =>
          rw [hq] at hit
          dsimp only at hit ⊢
          rw [if_neg (by simp [hit])]
          exact hrest

lemma enumLoop_mem_vaxeeMatch :
    ∀ (items : List IfaceItem) (info : VaxeeDeviceInfo),
      info ∈ enumLoop items → vaxeeMatch info = true
  | [], info => by simp [enumLoop]
  | it :: rest, info => by
    unfold enumLoop
    cases hp : it.pathRes with
    | none => exact enumLoop_mem_vaxeeMatch rest info
    | some path =>
      dsimp only
      by_cases hemp : path = ""
      · rw [if_pos hemp]
        exact enumLoop_mem_vaxeeMatch rest info
      · rw [if_neg hemp]
        cases hq : queryDeviceInfo it.query path with
        | none => exact enumLoop_mem_vaxeeMatch rest info
        | some d =>
          dsimp only
          cases hv : vaxeeMatch d with
          | false =>
            rw [if_neg (by simp [hv])]
            exact enumLoop_mem_vaxeeMatch rest info
          | true =>
            rw [if_pos rfl]
            intro hmem
            rcases List.mem_cons.mp hmem with rfl | hmem
            · exact hv
            · exact enumLoop_mem_vaxeeMatch rest info hmem

/-! ### Case lemmas for ApplyVaxeeSetting -/

lemma apply_case_perf_fails (env : HidEnv) (path0 : String) (perf : Nat)
    (poll : Int)
    (h : env.sendOk (applyPath env path0)
          (buildReportSized (applyFlen env) 0x08 perf) = false) :
    ApplyVaxeeSetting env path0 perf poll
      = (.error ("perf feature report failed: " ++ "HidD_SetFeature failed"),
         [.sent (applyPath env path0)
            (buildReportSized (applyFlen env) 0x08 perf)]) := by
  unfold ApplyVaxeeSetting
  dsimp only
  rw [sendFeatureReport_build, if_neg (by simp [h])]

lemma apply_case_rate_unsupported (env : HidEnv) (path0 : String) (perf : Nat)
    (poll : Int)
    (hs : env.sendOk (applyPath env path0)
          (buildReportSized (applyFlen env) 0x08 perf) = true)
    (h1 : poll ≠ 1000) (h2 : poll ≠ 2000) (h3 : poll ≠ 4000) :
    ApplyVaxeeSetting env path0 perf poll
      = (.error ("unsupported polling rate: " ++ toString poll),
         [.sent (applyPath env path0)
            (buildReportSized (applyFlen env) 0x08 perf), .slept 25]) := by
  unfold ApplyVaxeeSetting
  dsimp only
  rw [sendFeatureReport_build, if_pos hs]
  dsimp only
  rw [pollingToYY_unsupported poll h1 h2 h3]

lemma apply_case_poll_fails (env : HidEnv) (path0 : String) (perf : Nat)
    (poll : Int) (yy : Nat)
    (hs : env.sendOk (applyPath env path0)
          (buildReportSized (applyFlen env) 0x08 perf) = true)
    (hyy : pollingToYY poll = .ok yy)
    (hp : env.sendOk (applyPath env path0)
          (buildReportSized (applyFlen env) 0x07 yy) = false) :
    ApplyVaxeeSetting env path0 perf poll
      = (.error ("poll feature report failed: " ++ "HidD_SetFeature failed"),
         [.sent (applyPath env path0)
            (buildReportSized (applyFlen env) 0x08 perf), .slept 25,
          .sent (applyPath env path0)
            (buildReportSized (applyFlen env) 0x07 yy)]) := by
  unfold ApplyVaxeeSetting
  dsimp only
  rw [sendFeatureReport_build, if_pos hs]
  dsimp only
  rw [hyy]
  dsimp only
  rw [sendFeatureReport_build, if_neg (by simp [hp])]

lemma apply_case_success (env : HidEnv) (path0 : String) (perf : Nat)
    (poll : Int) (yy : Nat)
    (hs : env.sendOk (applyPath env path0)
          (buildReportSized (applyFlen env) 0x08 perf) = true)
    (hyy : pollingToYY poll = .ok yy)
    (hp : env.sendOk (applyPath env path0)
          (buildReportSized (applyFlen env) 0x07 yy) = true) :
    ApplyVaxeeSetting env path0 perf poll
      = (.ok (),
         [.sent (applyPath env path0)
            (buildReportSized (applyFlen env) 0x08 perf), .slept 25,
          .sent (applyPath env path0)
            (buildReportSized (applyFlen env) 0x07 yy)]) := by
  unfold ApplyVaxeeSetting
  dsimp only
  rw [sendFeatureReport_build, if_pos hs]
  dsimp only
  rw [hyy]
  dsimp only
  rw [sendFeatureReport_build, if_pos hp]

lemma applyDev_of_find_ok (env : HidEnv) (d : VaxeeDeviceInfo)
    (h : FindOneVaxeeDevice env = .ok d) : applyDev env = d := by
  unfold applyDev
  rw [h]

lemma applyDev_of_find_error (env : HidEnv) (e : String)
    (h : FindOneVaxeeDevice env = .error e) : applyDev env = zeroDevice := by
  unfold applyDev
  rw [h]

lemma applyPath_of_find_error (env : HidEnv) (e : String) (path0 : String)
    (h : FindOneVaxeeDevice env = .error e) : applyPath env path0 = path0 := by
  unfold applyPath
  rw [h]

lemma applyFlen_of_find_error (env : HidEnv) (e : String)
    (h : FindOneVaxeeDevice env = .error e) : applyFlen env = 64 := by
  unfold applyFlen
  rw [applyDev_of_find_error env e h]
  rfl

lemma applyFlen_of_find_ok (env : HidEnv) (d : VaxeeDeviceInfo)
    (h : FindOneVaxeeDevice env = .ok d) (hpos : 0 < d.FeatureLen) :
    applyFlen env = (d.FeatureLen : Int) := by
  unfold applyFlen
  rw [applyDev_of_find_ok env d h, if_neg (by omega)]

/-! ### Remaining helper lemmas for enumeration and selection -/

lemma enumerate_ok (os : HidOS) (hok : os.classDevsOk = true) :
    EnumerateVaxeeDevices os = .ok (enumLoop os.items) := by
  simp [EnumerateVaxeeDevices, hok]

lemma select_of_classdevs_fail (env : HidEnv)
    (hc : env.os.classDevsOk = false) :
    SelectVaxeeControlPath env = (.error "SetupDiGetClassDevsW failed", []) := by
  unfold SelectVaxeeControlPath
  have : EnumerateVaxeeDevices env.os = .error "SetupDiGetClassDevsW failed" := by
    simp [EnumerateVaxeeDevices, hc]
  rw [this]

lemma select_of_nil (env : HidEnv) (hok : env.os.classDevsOk = true)
    (hnil : enumLoop env.os.items = []) :
    SelectVaxeeControlPath env = (.error "no VAXEE HID device found", []) := by
  simp [SelectVaxeeControlPath, enumerate_ok env.os hok, hnil]

lemma select_of_found (env : HidEnv) (hok : env.os.classDevsOk = true)
    (hne : enumLoop env.os.items ≠ []) (d : VaxeeDeviceInfo)
    (hp : (probeLoop env.probeOk (orderCandidates (enumLoop env.os.items))).1
            = some d) :
    SelectVaxeeControlPath env
      = (.ok d,
         (probeLoop env.probeOk (orderCandidates (enumLoop env.os.items))).2) := by
  have hlen : ¬((enumLoop env.os.items).length = 0) := by simpa using hne
  simp [SelectVaxeeControlPath, enumerate_ok env.os hok, hlen, hp]

lemma select_of_no_hit (env : HidEnv) (hok : env.os.classDevsOk = true)
    (hne : enumLoop env.os.items ≠ [])
    (hp : (probeLoop env.probeOk (orderCandidates (enumLoop env.os.items))).1
            = none) :
    SelectVaxeeControlPath env
      = (.error "no VAXEE top-level collection accepts Feature ReportID=0x0e",
         (probeLoop env.probeOk (orderCandidates (enumLoop env.os.items))).2) := by
  have hlen : ¬((enumLoop env.os.items).length = 0) := by simpa using hne
  simp [SelectVaxeeControlPath, enumerate_ok env.os hok, hlen, hp]

lemma probe_order_nonkbd_first (p : String → Nat → Nat → Bool)
    (ds : List VaxeeDeviceInfo) (i : Nat) (dk d : VaxeeDeviceInfo)
    (hk : (probeLoop p (orderCandidates ds)).2.get? i = some dk)
    (hkbd : isKbdPath dk.Path = true)
    (hd : d ∈ ds) (hnd : isKbdPath d.Path = false) :
    ∃ j, j < i ∧ (probeLoop p (orderCandidates ds)).2.get? j = some d := by
  have hi_lt : i < (probeLoop p (orderCandidates ds)).2.length := by
    by_contra h
    push_neg at h
    rw [List.get?_eq_none.mpr h] at hk
    cases hk
  have horder_i : (orderCandidates ds).get? i = some dk := by
    rw [← probeLoop_trace_get? p _ i hi_lt]
    exact hk
  have hAle : (ds.filter (fun x => !isKbdPath x.Path)).length ≤ i :=
    orderCandidates_get?_kbd ds i dk horder_i hkbd
  have hdA : d ∈ ds.filter (fun x => !isKbdPath x.Path) :=
    List.mem_filter.mpr ⟨hd, by simp [hnd]⟩
  obtain ⟨j, hj⟩ := List.mem_iff_get?.mp hdA
  obtain ⟨hjlt, -⟩ := List.get?_eq_some.mp hj
  have hji : j < i := lt_of_lt_of_le hjlt hAle
  refine ⟨j, hji, ?_⟩
  rw [probeLoop_trace_get? p _ j (lt_trans hji hi_lt), orderCandidates,
    List.get?_append hjlt]
  exact hj

lemma probeLoop_take_of_first (p : String → Nat → Nat → Bool) :
    ∀ (l : List VaxeeDeviceInfo) (n : Nat) (b : VaxeeDeviceInfo),
      l.get? n = some b → probeHit p b = true →
      (∀ x ∈ l.take n, probeHit p x = false) →
      probeLoop p l = (some b, l.take (n + 1))
  | [], n, b => by simp
  | d :: rest, 0, b => by
    intro hb hs _
    cases Option.some.inj hb
    rw [probeLoop_cons_hit p d rest hs]
    rfl
  | d :: rest, m + 1, b => by
    intro hb hs hf
    have hd : probeHit p d = false := by
      apply hf d
      rw [List.take_succ_cons]
      exact List.mem_cons_self _ _
    rw [probeLoop_cons_miss p d rest hd]
    have IH := probeLoop_take_of_first p rest m b hb hs fun x hx => by
      apply hf x
      rw [List.take_succ_cons]
      exact List.mem_cons_of_mem _ hx
    rw [IH, List.take_succ_cons]

lemma reportLen_coe (n : Nat) : reportLen (n : Int) = max n 6 := by
  rw [reportLen_eq_max]
  rcases le_total n 6 with h | h
  · rw [max_eq_right (by exact_mod_cast h), Nat.max_eq_right h]
    rfl
  · rw [max_eq_left (by exact_mod_cast h), Nat.max_eq_left h]
    simp

/-- Trace part of SelectVaxeeControlPath in the non-degenerate cases. -/
lemma select_trace (env : HidEnv) (hok : env.os.classDevsOk = true)
    (hne : enumLoop env.os.items ≠ []) :
    (SelectVaxeeControlPath env).2
      = (probeLoop env.probeOk (orderCandidates (enumLoop env.os.items))).2 := by
  cases hp : (probeLoop env.probeOk (orderCandidates (enumLoop env.os.items))).1
  · rw [select_of_no_hit env hok hne hp]
  · rw [select_of_found env hok hne _ hp]

/-! ### Concrete fixtures for witnesses and counterexamples -/

/-- A plausible feature-capable collection of the vendor mouse. -/
def capsA : HidCaps := { Usage := 2, UsagePage := 1, FeatureReportByteLength := 20 }

def queryA : DevQuery :=
  { openOk := true, attrOk := true, vid := 0x3367, pid := 0x1903,
    manu := "VAXEE", prod := "PA one", caps := some capsA }

def itemA : IfaceItem := { pathRes := some "hid#a", query := queryA }

/-- The descriptor enumeration builds from itemA. -/
def devA : VaxeeDeviceInfo :=
  { Path := "hid#a", VID := 0x3367, PID := 0x1903, Manufacturer := "VAXEE",
    Product := "PA one", UsagePage := 1, Usage := 2, FeatureLen := 20 }

def osA : HidOS := { classDevsOk := true, items := [itemA] }

/-- One vendor device, every probe and send succeeding. -/
def envOkAll : HidEnv :=
  { os := osA, probeOk := fun _ _ _ => true, sendOk := fun _ _ => true }

def queryK : DevQuery :=
  { openOk := true, attrOk := true, vid := 0x3367, pid := 0x1903,
    manu := "VAXEE", prod := "keyboard collection", caps := some capsA }

def itemK : IfaceItem := { pathRes := some "hid#k\\kbd", query := queryK }

/-- The keyboard-suffixed sibling collection built from itemK. -/
def devK : VaxeeDeviceInfo :=
  { Path := "hid#k\\kbd", VID := 0x3367, PID := 0x1903, Manufacturer := "VAXEE",
    Product := "keyboard collection", UsagePage := 1, Usage := 2,
    FeatureLen := 20 }

/-- Both collections present; only the keyboard-suffixed one answers the
probe, so the non-keyboard one is probed (and fails) first. -/
def envKbdHit : HidEnv :=
  { os := { classDevsOk := true, items := [itemA, itemK] },
    probeOk := fun p _ _ => p == "hid#k\\kbd",
    sendOk := fun _ _ => true }

def capsT : HidCaps := { Usage := 2, UsagePage := 1, FeatureReportByteLength := 3 }

def queryT : DevQuery :=
  { openOk := true, attrOk := true, vid := 0x3367, pid := 0x1903,
    manu := "VAXEE", prod := "PA one", caps := some capsT }

def itemT : IfaceItem := { pathRes := some "hid#t", query := queryT }

/-- The descriptor enumeration builds from itemT: a declared feature
length of 3, below the 6-byte report header. -/
def devT : VaxeeDeviceInfo :=
  { Path := "hid#t", VID := 0x3367, PID := 0x1903, Manufacturer := "VAXEE",
    Product := "PA one", UsagePage := 1, Usage := 2, FeatureLen := 3 }

/-- A device whose declared feature length (3) is below the minimum
report size; probes and sends succeed. -/
def envTiny : HidEnv :=
  { os := { classDevsOk := true, items := [itemT] },
    probeOk := fun _ _ _ => true, sendOk := fun _ _ => true }

/-- No vendor device present at all (enumeration succeeds and is empty),
but every send would succeed. -/
def envNoDev : HidEnv :=
  { os := { classDevsOk := true, items := [] },
    probeOk := fun _ _ _ => true, sendOk := fun _ _ => true }

def queryPlain : DevQuery :=
  { openOk := true, attrOk := true, vid := 1, pid := 1,
    manu := "Contoso", prod := "Generic Mouse", caps := none }

/-- A system with only non-vendor devices, one unresolvable interface
and one unopenable path: enumeration must return an empty list. -/
def osNoMatch : HidOS :=
  { classDevsOk := true,
    items := [ { pathRes := some "hid#p", query := queryPlain },
               { pathRes := none, query := queryPlain },
               { pathRes := some "hid#q",
                 query := { queryPlain with openOk := false } } ] }

/-- Three vendor-free probe targets for the short-circuit scenario. -/
def devX : VaxeeDeviceInfo :=
  { Path := "x", VID := 1, PID := 1, Manufacturer := "VAXEE", Product := "A",
    UsagePage := 1, Usage := 2, FeatureLen := 20 }

def devY : VaxeeDeviceInfo :=
  { Path := "y", VID := 1, PID := 1, Manufacturer := "VAXEE", Product := "B",
    UsagePage := 1, Usage := 2, FeatureLen := 20 }

def devZ : VaxeeDeviceInfo :=
  { Path := "z", VID := 1, PID := 1, Manufacturer := "VAXEE", Product := "C",
    UsagePage := 1, Usage := 2, FeatureLen := 20 }

/-- A probe oracle failing on devX and succeeding on devY and devZ. -/
def probeYZ : String → Nat → Nat → Bool :=
  fun p _ _ => p == "y" || p == "z"

/-! ### C1 -/

/-- C1 counterexample: calling apply with the unsupported rate 3000
against a fully working device does NOT fail before any report is sent —
the performance-mode feature report is sent first (it appears in the
event trace), and only then does apply fail with the unsupported-rate
error. -/
theorem apply_unsupported_rate_sends_report_cex :
    (ApplyVaxeeSetting envOkAll "caller" 1 3000).2
        = [Ev.sent "hid#a" (buildReportSized 20 0x08 1), Ev.slept 25]
    ∧ (ApplyVaxeeSetting envOkAll "caller" 1 3000).1
        = .error ("unsupported polling rate: " ++ toString (3000 : Int)) :=
  ⟨rfl, rfl⟩

/-- C1 (amended): for every call to apply with a polling rate outside
{1000, 2000, 4000}, the performance-mode report send is attempted first;
if that send succeeds, apply fails with the unsupported-rate error having
sent exactly one feature report, and the polling-rate report is never
sent; if the send fails, apply returns that send failure (again without
ever sending the polling-rate report). -/
theorem apply_unsupported_rate_after_perf_send (env : HidEnv) (path0 : String)
    (perf : Nat) (poll : Int)
    (h1 : poll ≠ 1000) (h2 : poll ≠ 2000) (h3 : poll ≠ 4000) :
    (env.sendOk (applyPath env path0)
        (buildReportSized (applyFlen env) 0x08 perf) = true →
      ApplyVaxeeSetting env path0 perf poll
        = (.error ("unsupported polling rate: " ++ toString poll),
           [.sent (applyPath env path0)
              (buildReportSized (applyFlen env) 0x08 perf), .slept 25]))
    ∧ (env.sendOk (applyPath env path0)
        (buildReportSized (applyFlen env) 0x08 perf) = false →
      ApplyVaxeeSetting env path0 perf poll
        = (.error ("perf feature report failed: " ++ "HidD_SetFeature failed"),
           [.sent (applyPath env path0)
              (buildReportSized (applyFlen env) 0x08 perf)])) :=
  ⟨fun hs => apply_case_rate_unsupported env path0 perf poll hs h1 h2 h3,
   fun hf => apply_case_perf_fails env path0 perf poll hf⟩

/-- C1 witness: the amended theorem evaluated on the concrete scenario of
the counterexample. -/
theorem apply_unsupported_rate_after_perf_send_witness :
    ApplyVaxeeSetting envOkAll "caller" 1 3000
      = (.error ("unsupported polling rate: " ++ toString (3000 : Int)),
         [Ev.sent "hid#a" (buildReportSized 20 0x08 1), Ev.slept 25]) :=
  (apply_unsupported_rate_after_perf_send envOkAll "caller" 1 3000
    (by decide) (by decide) (by decide)).1 rfl

/-! ### C2 -/

/-- C2 counterexample: bytes 1 through 4 of the report are NOT a fixed
constant header independent of cmd: byte 2 carries the command byte, so
two calls differing only in cmd produce different buffers at index 2. -/
theorem buildReportSized_header_cex :
    (buildReportSized 6 0x08 0).get? 2 = some 0x08
    ∧ (buildReportSized 6 0x07 0).get? 2 = some 0x07
    ∧ buildReportSized 6 0x08 0 ≠ buildReportSized 6 0x07 0 :=
  ⟨rfl, rfl, by decide⟩

/-- C2 (amended): buildReport(totalLength, cmd, val) returns a buffer of
length max(totalLength, 6) whose byte 0 is the fixed report ID 0x0e,
whose bytes 1, 3, 4 are the fixed constants 0xa5, 0x02, 0x01, whose
byte 2 is the command byte cmd, whose byte 5 equals val, and whose every
byte beyond index 5 is zero. -/
theorem buildReportSized_layout (total : Int) (cmd val : Nat) :
    (buildReportSized total cmd val).length = (max total 6).toNat
    ∧ (buildReportSized total cmd val).get? 0 = some 0x0e
    ∧ (buildReportSized total cmd val).get? 1 = some 0xa5
    ∧ (buildReportSized total cmd val).get? 2 = some cmd
    ∧ (buildReportSized total cmd val).get? 3 = some 0x02
    ∧ (buildReportSized total cmd val).get? 4 = some 0x01
    ∧ (buildReportSized total cmd val).get? 5 = some val
    ∧ ∀ i : Nat, 5 < i → i < (buildReportSized total cmd val).length →
        (buildReportSized total cmd val).get? i = some 0 := by
  have h6 := six_le_reportLen total
  refine ⟨?_, ?_, ?_, ?_, ?_, ?_, ?_, ?_⟩
  · rw [buildReportSized_length, reportLen_eq_max]
  · rw [buildReportSized_eq]; rfl
  · rw [buildReportSized_eq]; rfl
  · rw [buildReportSized_eq]; rfl
  · rw [buildReportSized_eq]; rfl
  · rw [buildReportSized_eq]; rfl
  · rw [buildReportSized_eq]; rfl
  · intro i h5 hlen
    rw [buildReportSized_length] at hlen
    rw [buildReportSized_eq,
      List.get?_append_right (by simp; omega)]
    simp only [List.length_cons, List.length_nil]
    exact replicate_get?_of_lt _ _ (by omega)

/-- C2 witness: the amended layout theorem evaluated at total = 9,
cmd = 0x08, val = 5, checking the zero padding at index 7. -/
theorem buildReportSized_layout_witness :
    (buildReportSized 9 0x08 5).get? 7 = some 0 :=
  (buildReportSized_layout 9 0x08 5).2.2.2.2.2.2.2 7 (by decide) (by decide)

/-! ### C4 -/

/-- C4 (confirmed): pollingToYY maps 1000 to 0x02, 2000 to 0x03 and 4000
to 0x04, and fails with the unsupported-rate error on every other
integer. -/
theorem pollingToYY_contract :
    pollingToYY 1000 = .ok 0x02
    ∧ pollingToYY 2000 = .ok 0x03
    ∧ pollingToYY 4000 = .ok 0x04
    ∧ ∀ p : Int, p ≠ 1000 → p ≠ 2000 → p ≠ 4000 →
        pollingToYY p = .error ("unsupported polling rate: " ++ toString p) :=
  ⟨rfl, rfl, rfl, pollingToYY_unsupported⟩

/-- C4 witness: the contract evaluated at the unsupported rate 3000. -/
theorem pollingToYY_contract_witness :
    pollingToYY 3000 = .error ("unsupported polling rate: " ++ toString (3000 : Int)) :=
  pollingToYY_contract.2.2.2 3000 (by decide) (by decide) (by decide)

/-! ### C3 -/

/-- C3 counterexample: a resolved device declaring feature length L = 3
(L > 0) does not get reports of length 3: both sent reports have length
6, because buildReportSized clamps the length up to the 6-byte header. -/
theorem apply_small_featurelen_cex :
    FindOneVaxeeDevice envTiny = .ok devT
    ∧ devT.FeatureLen = 3
    ∧ (ApplyVaxeeSetting envTiny "caller" 1 1000).2
        = [Ev.sent "hid#t" (buildReportSized 3 0x08 1), Ev.slept 25,
           Ev.sent "hid#t" (buildReportSized 3 0x07 2)]
    ∧ (buildReportSized 3 0x08 1).length = 6
    ∧ ¬((buildReportSized 3 0x08 1).length = 3) :=
  ⟨by rfl, rfl, by rfl, by decide, by decide⟩

/-- C3 (amended): when apply re-resolves the control path to a
descriptor with declared feature length L > 0 and the rate is supported,
it sends exactly two feature reports of length max(L, 6) each (equal to
L whenever L ≥ 6): first the performance-mode report (command byte 0x08,
payload = the mode value), then — after the fixed 25 ms settling delay —
the polling-rate report (command byte 0x07, payload = the rate's
protocol byte).  If the first send fails, apply stops with that failure
and nothing else is sent; if the second send fails, apply returns that
failure without rolling back the first report. -/
theorem apply_resolved_two_reports (env : HidEnv) (path0 : String)
    (perf : Nat) (poll : Int) (dev : VaxeeDeviceInfo) (yy : Nat)
    (hfind : FindOneVaxeeDevice env = .ok dev)
    (hL : 0 < dev.FeatureLen)
    (hyy : pollingToYY poll = .ok yy) :
    ((buildReportSized (dev.FeatureLen : Int) 0x08 perf).length
        = max dev.FeatureLen 6
      ∧ (buildReportSized (dev.FeatureLen : Int) 0x07 yy).length
        = max dev.FeatureLen 6)
    ∧ (env.sendOk (applyPath env path0)
          (buildReportSized (dev.FeatureLen : Int) 0x08 perf) = true →
       env.sendOk (applyPath env path0)
          (buildReportSized (dev.FeatureLen : Int) 0x07 yy) = true →
        ApplyVaxeeSetting env path0 perf poll
          = (.ok (),
             [.sent (applyPath env path0)
                (buildReportSized (dev.FeatureLen : Int) 0x08 perf),
              .slept 25,
              .sent (applyPath env path0)
                (buildReportSized (dev.FeatureLen : Int) 0x07 yy)]))
    ∧ (env.sendOk (applyPath env path0)
          (buildReportSized (dev.FeatureLen : Int) 0x08 perf) = false →
        ApplyVaxeeSetting env path0 perf poll
          = (.error ("perf feature report failed: " ++ "HidD_SetFeature failed"),
             [.sent (applyPath env path0)
                (buildReportSized (dev.FeatureLen : Int) 0x08 perf)]))
    ∧ (env.sendOk (applyPath env path0)
          (buildReportSized (dev.FeatureLen : Int) 0x08 perf) = true →
       env.sendOk (applyPath env path0)
          (buildReportSized (dev.FeatureLen : Int) 0x07 yy) = false →
        ApplyVaxeeSetting env path0 perf poll
          = (.error ("poll feature report failed: " ++ "HidD_SetFeature failed"),
             [.sent (applyPath env path0)
                (buildReportSized (dev.FeatureLen : Int) 0x08 perf),
              .slept 25,
              .sent (applyPath env path0)
                (buildReportSized (dev.FeatureLen : Int) 0x07 yy)])) := by
  have hflen := applyFlen_of_find_ok env dev hfind hL
  refine ⟨⟨?_, ?_⟩, ?_, ?_, ?_⟩
  · rw [buildReportSized_length, reportLen_coe]
  · rw [buildReportSized_length, reportLen_coe]
  · intro hs hp
    have h := apply_case_success env path0 perf poll yy
      (by rw [hflen]; exact hs) hyy (by rw [hflen]; exact hp)
    rw [hflen] at h
    exact h
  · intro hf
    have h := apply_case_perf_fails env path0 perf poll
      (by rw [hflen]; exact hf)
    rw [hflen] at h
    exact h
  · intro hs hp
    have h := apply_case_poll_fails env path0 perf poll yy
      (by rw [hflen]; exact hs) hyy (by rw [hflen]; exact hp)
    rw [hflen] at h
    exact h

/-- C3 witness: the spec scenario — device with feature length 20,
apply(mode 1, 1000 Hz) — produces exactly the two 20-byte reports with
the settling delay between them. -/
theorem apply_resolved_two_reports_witness :
    ApplyVaxeeSetting envOkAll "caller" 1 1000
      = (.ok (), [Ev.sent "hid#a" (buildReportSized 20 0x08 1), Ev.slept 25,
                  Ev.sent "hid#a" (buildReportSized 20 0x07 2)]) :=
  (apply_resolved_two_reports envOkAll "caller" 1 1000 devA 2
    (by rfl) (by decide) (by rfl)).2.1 (by rfl) (by rfl)

/-! ### C5 -/

/-- C5 (confirmed): the control-path probe order never reaches a
keyboard-suffixed candidate before every non-keyboard-suffixed
vendor-matching candidate has been probed: if the instrumented probe
trace of SelectVaxeeControlPath contains a keyboard-suffixed candidate
at position i, then every non-keyboard-suffixed enumerated candidate
occurs in the trace at some position before i. -/
theorem select_probes_nonkbd_first (env : HidEnv) (i : Nat)
    (dk d : VaxeeDeviceInfo)
    (hk : (SelectVaxeeControlPath env).2.get? i = some dk)
    (hkbd : isKbdPath dk.Path = true)
    (hd : d ∈ enumLoop env.os.items)
    (hnd : isKbdPath d.Path = false) :
    ∃ j, j < i ∧ (SelectVaxeeControlPath env).2.get? j = some d := by
  cases hc : env.os.classDevsOk with
  | false =>
    rw [select_of_classdevs_fail env hc] at hk
    simp at hk
  | true =>
    by_cases hnil : enumLoop env.os.items = []
    · rw [hnil] at hd
      simp at hd
    · rw [select_trace env hc hnil] at hk ⊢
      exact probe_order_nonkbd_first env.probeOk _ i dk d hk hkbd hd hnd

/-- C5 witness: with both collections present and only the
keyboard-suffixed one answering, the trace probes the non-keyboard
candidate first. -/
theorem select_probes_nonkbd_first_witness :
    ∃ j, j < 1 ∧ (SelectVaxeeControlPath envKbdHit).2.get? j = some devA :=
  select_probes_nonkbd_first envKbdHit 1 devK devA (by rfl) (by rfl)
    (by decide) (by rfl)

/-! ### C6 -/

/-- C6 (confirmed): the probe loop of control-path selection
short-circuits: if candidate number n (in probe order) is the first
whose get-feature probe succeeds, the loop returns exactly that
candidate and the probe trace is precisely the first n + 1 candidates —
no later candidate is ever probed. -/
theorem probeLoop_short_circuits (p : String → Nat → Nat → Bool)
    (l : List VaxeeDeviceInfo) (n : Nat) (b : VaxeeDeviceInfo)
    (hb : l.get? n = some b) (hs : probeHit p b = true)
    (hf : ∀ x ∈ l.take n, probeHit p x = false) :
    probeLoop p l = (some b, l.take (n + 1)) :=
  probeLoop_take_of_first p l n b hb hs hf

/-- C6 witness: with candidates [devX (fails), devY (succeeds),
devZ (succeeds)] the result is devY and devZ is never probed. -/
theorem probeLoop_short_circuits_witness :
    probeLoop probeYZ [devX, devY, devZ] = (some devY, [devX, devY]) :=
  probeLoop_short_circuits probeYZ [devX, devY, devZ] 1 devY
    (by rfl) (by rfl) (by decide)

/-! ### C7 -/

/-- C7 (confirmed): when the OS class query succeeds,
SelectVaxeeControlPath fails with the no-device message exactly when the
vendor enumeration is empty, fails with the no-control-channel message
exactly when candidates exist but none answers the report-ID-0x0e
get-feature probe, and any successfully returned descriptor is an
enumerated candidate that answered the probe. -/
theorem select_contract (env : HidEnv) (hok : env.os.classDevsOk = true) :
    ((SelectVaxeeControlPath env).1 = .error "no VAXEE HID device found"
        ↔ enumLoop env.os.items = [])
    ∧ ((SelectVaxeeControlPath env).1
          = .error "no VAXEE top-level collection accepts Feature ReportID=0x0e"
        ↔ enumLoop env.os.items ≠ [] ∧
            ∀ d ∈ enumLoop env.os.items, probeHit env.probeOk d = false)
    ∧ (∀ d, (SelectVaxeeControlPath env).1 = .ok d →
        d ∈ enumLoop env.os.items ∧ probeHit env.probeOk d = true) := by
  have hstr : ("no VAXEE HID device found" : String)
      ≠ "no VAXEE top-level collection accepts Feature ReportID=0x0e" := by
    decide
  by_cases hnil : enumLoop env.os.items = []
  · rw [select_of_nil env hok hnil]
    refine ⟨by simp [hnil], ?_, ?_⟩
    · dsimp only
      constructor
      · intro h
        injection h with h
        exact absurd h hstr
      · rintro ⟨hne, -⟩
        exact absurd hnil hne
    · intro d h
      simp at h
  · cases hp : (probeLoop env.probeOk (orderCandidates (enumLoop env.os.items))).1 with
    | some d0 =>
      rw [select_of_found env hok hnil d0 hp]
      have hd0 := probeLoop_some env.probeOk _ d0 hp
      have hmem := (mem_orderCandidates d0 _).mp hd0.1
      refine ⟨?_, ?_, ?_⟩
      · dsimp only
        constructor
        · intro h
          simp at h
        · intro h
          exact absurd h hnil
      · dsimp only
        constructor
        · intro h
          simp at h
        · rintro ⟨-, hall⟩
          have := hall d0 hmem
          rw [hd0.2] at this
          cases this
      · intro d h
        dsimp only at h
        injection h with h
        cases h
        exact ⟨hmem, hd0.2⟩
    | none =>
      rw [select_of_no_hit env hok hnil hp]
      refine ⟨?_, ?_, ?_⟩
      · dsimp only
        constructor
        · intro h
          injection h with h
          exact absurd h.symm hstr
        · intro h
          exact absurd h hnil
      · dsimp only
        constructor
        · intro _
          refine ⟨hnil, fun d hd => ?_⟩
          have hall := (probeLoop_none_iff env.probeOk
            (orderCandidates (enumLoop env.os.items))).mp hp
          exact hall d ((mem_orderCandidates d _).mpr hd)
        · intro _
          rfl
      · intro d h
        simp at h

/-- C7 witness: on a system with no vendor device, selection fails with
the no-device message. -/
theorem select_contract_witness :
    (SelectVaxeeControlPath envNoDev).1 = .error "no VAXEE HID device found" :=
  (select_contract envNoDev rfl).1.mpr rfl

/-! ### C8 -/

/-- C8 (confirmed): enumeration fails exactly when the OS device-class
query fails; whenever that query succeeds the enumeration returns a list
(no per-item failure aborts it); when no item yields a vendor-matching
descriptor the result is the empty list with no error; and a capability
query failure merely degrades the descriptor (zero usage and feature
length) instead of dropping it. -/
theorem enumerate_error_contract (os : HidOS) :
    ((∃ e, EnumerateVaxeeDevices os = .error e) ↔ os.classDevsOk = false)
    ∧ (os.classDevsOk = true →
        EnumerateVaxeeDevices os = .ok (enumLoop os.items))
    ∧ (os.classDevsOk = true →
        (∀ it ∈ os.items, itemYieldsMatch it = false) →
        EnumerateVaxeeDevices os = .ok [])
    ∧ (∀ (q : DevQuery) (path : String), q.openOk = true → q.attrOk = true →
        q.caps = none →
        queryDeviceInfo q path
          = some { Path := path, VID := q.vid, PID := q.pid,
                   Manufacturer := q.manu, Product := q.prod,
                   UsagePage := 0, Usage := 0, FeatureLen := 0 }) := by
  refine ⟨⟨?_, ?_⟩, fun hok => enumerate_ok os hok, fun hok hall => ?_, ?_⟩
  · rintro ⟨e, he⟩
    cases hc : os.classDevsOk
    · rfl
    · rw [enumerate_ok os hc] at he
      cases he
  · intro hc
    exact ⟨"SetupDiGetClassDevsW failed", by simp [EnumerateVaxeeDevices, hc]⟩
  · rw [enumerate_ok os hok, enumLoop_nil_of_no_match os.items hall]
  · intro q path ho ha hc
    simp [queryDeviceInfo, ho, ha, hc]

/-- C8 witness: a system with only non-vendor devices, one unresolvable
interface and one unopenable path enumerates to the empty list without
error. -/
theorem enumerate_error_contract_witness :
    EnumerateVaxeeDevices osNoMatch = .ok [] :=
  (enumerate_error_contract osNoMatch).2.2.1 rfl (by decide)

/-! ### C9 -/

/-- C9 (confirmed): every descriptor returned by the vendor-filtered
enumeration passes the vendor filter — its lowercased manufacturer or
product string contains the substring "vaxee". -/
theorem enumerate_filter_sound (os : HidOS) (out : List VaxeeDeviceInfo)
    (h : EnumerateVaxeeDevices os = .ok out) :
    ∀ info ∈ out,
      (strContains (strToLower info.Manufacturer) "vaxee" ||
        strContains (strToLower info.Product) "vaxee") = true := by
  cases hc : os.classDevsOk
  · have hfail : EnumerateVaxeeDevices os
        = .error "SetupDiGetClassDevsW failed" := by
      simp [EnumerateVaxeeDevices, hc]
    rw [hfail] at h
    cases h
  · rw [enumerate_ok os hc] at h
    injection h with h
    subst h
    exact fun info hmem => enumLoop_mem_vaxeeMatch os.items info hmem

/-- C9 witness: the filter property evaluated on the one-device system. -/
theorem enumerate_filter_sound_witness :
    (strContains (strToLower devA.Manufacturer) "vaxee" ||
      strContains (strToLower devA.Product) "vaxee") = true :=
  enumerate_filter_sound osA [devA] (by rfl) devA (by decide)

/-! ### C10 -/

/-- C10 counterexample: when the internal re-resolution fails and the
requested rate is unsupported, apply does NOT send both feature
reports — although every send would succeed, only the performance-mode
report goes out (at the 64-byte fallback length, to the caller-supplied
path) and the outcome is the unsupported-rate error, not an outcome of
the sends. -/
theorem apply_resolution_failure_cex :
    FindOneVaxeeDevice envNoDev = .error "no VAXEE HID device found"
    ∧ (ApplyVaxeeSetting envNoDev "caller" 1 3000).2
        = [Ev.sent "caller" (buildReportSized 64 0x08 1), Ev.slept 25]
    ∧ (ApplyVaxeeSetting envNoDev "caller" 1 3000).1
        = .error ("unsupported polling rate: " ++ toString (3000 : Int)) :=
  ⟨by rfl, by rfl, by rfl⟩

/-- C10 (amended): when the internal control-path re-resolution fails,
apply does not return the resolution failure: it keeps the
caller-supplied path and the 64-byte fallback report length; provided
the polling rate is supported, it proceeds to send both feature reports
(each of length 64) to that path and the outcome is decided solely by
the two sends; an unsupported rate still fails with the rate error after
the performance-mode send. -/
theorem apply_after_resolution_failure (env : HidEnv) (path0 : String)
    (perf : Nat) (poll : Int) (e : String) (yy : Nat)
    (hfind : FindOneVaxeeDevice env = .error e)
    (hyy : pollingToYY poll = .ok yy) :
    (applyPath env path0 = path0)
    ∧ (applyFlen env = 64)
    ∧ ((buildReportSized 64 0x08 perf).length = 64
        ∧ (buildReportSized 64 0x07 yy).length = 64)
    ∧ (env.sendOk path0 (buildReportSized 64 0x08 perf) = true →
       env.sendOk path0 (buildReportSized 64 0x07 yy) = true →
        ApplyVaxeeSetting env path0 perf poll
          = (.ok (),
             [.sent path0 (buildReportSized 64 0x08 perf), .slept 25,
              .sent path0 (buildReportSized 64 0x07 yy)]))
    ∧ (env.sendOk path0 (buildReportSized 64 0x08 perf) = false →
        ApplyVaxeeSetting env path0 perf poll
          = (.error ("perf feature report failed: " ++ "HidD_SetFeature failed"),
             [.sent path0 (buildReportSized 64 0x08 perf)]))
    ∧ (env.sendOk path0 (buildReportSized 64 0x08 perf) = true →
       env.sendOk path0 (buildReportSized 64 0x07 yy) = false →
        ApplyVaxeeSetting env path0 perf poll
          = (.error ("poll feature report failed: " ++ "HidD_SetFeature failed"),
             [.sent path0 (buildReportSized 64 0x08 perf), .slept 25,
              .sent path0 (buildReportSized 64 0x07 yy)])) := by
  have hpath := applyPath_of_find_error env e path0 hfind
  have hflen := applyFlen_of_find_error env e hfind
  refine ⟨hpath, hflen, ⟨?_, ?_⟩, ?_, ?_, ?_⟩
  · rw [buildReportSized_length]
    rfl
  · rw [buildReportSized_length]
    rfl
  · intro hs hp
    have h := apply_case_success env path0 perf poll yy
      (by rw [hpath, hflen]; exact hs) hyy (by rw [hpath, hflen]; exact hp)
    rw [hpath, hflen] at h
    exact h
  · intro hf
    have h := apply_case_perf_fails env path0 perf poll
      (by rw [hpath, hflen]; exact hf)
    rw [hpath, hflen] at h
    exact h
  · intro hs hp
    have h := apply_case_poll_fails env path0 perf poll yy
      (by rw [hpath, hflen]; exact hs) hyy (by rw [hpath, hflen]; exact hp)
    rw [hpath, hflen] at h
    exact h

/-- C10 witness: with no device found but working sends and a supported
rate, apply succeeds, sending both 64-byte reports to the caller path. -/
theorem apply_after_resolution_failure_witness :
    ApplyVaxeeSetting envNoDev "caller" 1 1000
      = (.ok (), [Ev.sent "caller" (buildReportSized 64 0x08 1), Ev.slept 25,
                  Ev.sent "caller" (buildReportSized 64 0x07 2)]) :=
  (apply_after_resolution_failure envNoDev "caller" 1 1000
    "no VAXEE HID device found" 2 (by rfl) (by rfl)).2.2.2.1 rfl rfl

end Vaxee
